import Mathlib

/-!
Shallow embedding of the core of `src/main.py` (Accour / "Accumulative Hour
Tracker"): the `CSVHandler` record store and the aggregate computations in
`update_pie_chart` / `update_stats`, together with the store-mutating UI
handlers `add_activity`, `edit_activity`, `delete_activity`.

Modelling choices, traceable to the source:
* A user's store (the per-user CSV file) is `Option (List RawRow)`:
  `none` means the file is absent, `some rows` means the file exists with
  the standard header line `Date,Category,Activity,TimeSpent` followed by
  one line per element of `rows`, in order.
* A `RawRow` carries `category : Option String`.  `csv.DictReader` keys
  every row by the file's header; a file written by an older version whose
  header lacks the `Category` column yields row dicts with no `"Category"`
  key, which `row.setdefault("Category", "Other")` (main.py lines 41 and 60)
  then defaults to the fixed label `"Other"`.  `category = none` models
  such a row.
* `TimeSpent` is stored as text and re-parsed with `int(...)` at every use;
  since `int(str(n)) = n`, it is modelled directly as `Int`.
* GUI message boxes are pure observations here: the read operations return
  a `Bool` recording whether a user-visible warning was displayed.
-/

namespace Accour

/-- One line of the CSV file below the header, as `csv.DictReader` sees it.
`category = none` models a row dict with no `"Category"` key (file header
without a `Category` column). -/
structure RawRow where
  date : String
  category : Option String
  activity : String
  timeSpent : Int
deriving DecidableEq, Repr

/-- An activity record as returned by the read operations: the category has
been defaulted, all four fields are present. -/
structure Record where
  date : String
  category : String
  activity : String
  timeSpent : Int
deriving DecidableEq, Repr

/-- The state of one user's storage: `none` = file missing, `some rows` =
file present with the standard header followed by `rows`. -/
abbrev FileState := Option (List RawRow)

/-- `CSVHandler.initialize_csv` (main.py lines 22-30): if the user's file
does not exist, create it containing only the header row; otherwise do
nothing. -/
def initCsv : FileState → FileState
  | none => some []
  | some rows => some rows

/-- The per-row half of `CSVHandler.read_all_activities` (main.py lines
40-42): `row.setdefault("Category", "Other")` defaults an absent category
to the fixed label `"Other"` and leaves every other field unchanged. -/
def readRow (r : RawRow) : Record :=
  { date := r.date, category := r.category.getD "Other",
    activity := r.activity, timeSpent := r.timeSpent }

/-- `CSVHandler.read_all_activities` (main.py lines 32-47).  Returns the
record list and whether a user-visible warning was displayed: on
`FileNotFoundError` it shows a `QMessageBox.warning` and returns `[]`;
otherwise it returns every row, category-defaulted, in file order, with no
warning. -/
def readAllActivities : FileState → List Record × Bool
  | none => ([], true)
  | some rows => (rows.map readRow, false)

/-- `CSVHandler.read_activities_for_today` (main.py lines 49-64).  Keeps
only the rows whose `Date` field equals today's date; on
`FileNotFoundError` it silently (`pass`) returns `[]` — the warning
component is `false` on every path since the function displays no message
box. -/
def readActivitiesForToday (st : FileState) (today : String) : List Record × Bool :=
  match st with
  | none => ([], false)
  | some rows => ((rows.filter (fun r => r.date == today)).map readRow, false)

/-- The inverse of `readRow` used by writing: `write_activities` writes
`[activity["Date"], activity["Category"], activity["Activity"],
activity["TimeSpent"]]`, so the written row always has its category
present. -/
def recordToRaw (r : Record) : RawRow :=
  { date := r.date, category := some r.category,
    activity := r.activity, timeSpent := r.timeSpent }

/-- `CSVHandler.write_activities` (main.py lines 66-77): opens the user's
file in `"w"` mode and rewrites it whole — header first, then exactly the
given records in the given order.  The previous file state is irrelevant. -/
def writeActivities (activities : List Record) : FileState :=
  some (activities.map recordToRaw)

/-- Python's `str.strip()` with no argument: remove leading and trailing
whitespace. -/
def strip (s : String) : String :=
  ⟨(((s.data.dropWhile Char.isWhitespace).reverse).dropWhile
      Char.isWhitespace).reverse⟩

/-- `AccumulativeHourApp.add_activity` (main.py lines 663-676), acting on
the rows of an initialized store (the app calls `initialize_csv` in
`load_user_data` before any submission, so the file exists and has a
header).  The input name is stripped; if the stripped name is empty the
`if activity:` guard fails and nothing at all happens (no write, no
message); otherwise one row `[today, category, activity, duration]` is
appended to the end of the file. -/
def addActivity (today category activity : String) (duration : Int)
    (rows : List RawRow) : List RawRow :=
  let a := strip activity
  if a = "" then rows
  else rows ++ [{ date := today, category := some category,
                  activity := a, timeSpent := duration }]

/-- The in-memory positional update of `edit_activity` (main.py lines
688-689): `activities[row_idx]["Activity"] = new_activity;
activities[row_idx]["TimeSpent"] = str(new_time)`. -/
def setAt (newActivity : String) (newTime : Int) :
    Nat → List Record → List Record
  | _, [] => []
  | 0, r :: rs =>
      { r with activity := newActivity, timeSpent := newTime } :: rs
  | n + 1, r :: rs => r :: setAt newActivity newTime n rs

/-- `AccumulativeHourApp.edit_activity` (main.py lines 678-692), the branch
where both dialogs are confirmed: read TODAY's activities, mutate the one
at `row_idx` in memory, then `write_activities` the resulting list —
rewriting the whole file with it. -/
def editActivity (st : FileState) (today : String) (rowIdx : Nat)
    (newActivity : String) (newTime : Int) : FileState :=
  writeActivities (setAt newActivity newTime rowIdx
    (readActivitiesForToday st today).1)

/-- `AccumulativeHourApp.delete_activity` (main.py lines 694-703), the
confirmed branch: read TODAY's activities, `del activities[row_idx]`, then
`write_activities` the remainder — rewriting the whole file with it. -/
def deleteActivity (st : FileState) (today : String) (rowIdx : Nat) : FileState :=
  writeActivities (((readActivitiesForToday st today).1).eraseIdx rowIdx)

/-- `total_time = sum(int(activity["TimeSpent"]) for activity in activities)`
(main.py line 540, and identically line 598). -/
def totalTime (activities : List Record) : Int :=
  (activities.map (·.timeSpent)).sum

/-- `remaining_time = max(self.daily_goal - total_time, 0)` (main.py
line 541). -/
def remainingTime (goal : Int) (activities : List Record) : Int :=
  max (goal - totalTime activities) 0

/-- The per-date sum inside `update_stats` (main.py line 601):
`sum(int(a["TimeSpent"]) for a in activities if a["Date"] == date)`. -/
def dateTotal (activities : List Record) (d : String) : Int :=
  ((activities.filter (fun a => a.date == d)).map (·.timeSpent)).sum

/-- `days_completed_goal` in `update_stats` (main.py lines 600-602): the
size of the set `{activity["Date"] for activity in activities if
dateTotal ... >= goal}` — the number of distinct dates whose per-date sum
of time spent is at least the goal. -/
def daysMeetingGoal (activities : List Record) (goal : Int) : Nat :=
  (((activities.filter (fun a => decide (goal ≤ dateTotal activities a.date))).map
      (·.date)).dedup).length

/-- One submission of the Home-tab input form: the selected category, the
raw text of the activity field, and the spin-box duration. -/
structure ActivityInput where
  category : String
  activity : String
  duration : Int
deriving DecidableEq, Repr

/-- A sequence of form submissions, each handled by `add_activity`, applied
left to right to the rows of the store. -/
def appendAll (today : String) (inps : List ActivityInput)
    (rows : List RawRow) : List RawRow :=
  inps.foldl (fun rs i => addActivity today i.category i.activity i.duration rs) rows

/-- The record that `add_activity` persists for one (non-blank) form
submission. -/
def mkRecord (today : String) (i : ActivityInput) : Record :=
  { date := today, category := i.category,
    activity := strip i.activity, timeSpent := i.duration }

/- ## Helper lemmas -/

theorem readRow_recordToRaw (r : Record) : readRow (recordToRaw r) = r := rfl

theorem map_readRow_recordToRaw (l : List Record) :
    (l.map recordToRaw).map readRow = l := by
  rw [List.map_map, show readRow ∘ recordToRaw = id from funext readRow_recordToRaw,
    List.map_id]

theorem addActivity_nonblank (today category activity : String) (duration : Int)
    (rows : List RawRow) (h : strip activity ≠ "") :
    addActivity today category activity duration rows =
      rows ++ [{ date := today, category := some category,
                 activity := strip activity, timeSpent := duration }] := by
  simp [addActivity, h]

theorem appendAll_eq (today : String) (inps : List ActivityInput) :
    ∀ rows : List RawRow, (∀ i ∈ inps, strip i.activity ≠ "") →
      appendAll today inps rows =
        rows ++ inps.map (fun i => recordToRaw (mkRecord today i)) := by
  induction inps with
  | nil => intro rows _; simp [appendAll]
  | cons i is ih =>
    intro rows h
    have hi : strip i.activity ≠ "" := h i (List.mem_cons_self i is)
    have his : ∀ j ∈ is, strip j.activity ≠ "" :=
      fun j hj => h j (List.mem_cons_of_mem i hj)
    show appendAll today is
        (addActivity today i.category i.activity i.duration rows) = _
    rw [ih _ his, addActivity_nonblank _ _ _ _ _ hi]
    simp [recordToRaw, mkRecord]

theorem filter_map_readRow (today : String) (rows : List RawRow) :
    (rows.filter (fun r => r.date == today)).map readRow =
      (rows.map readRow).filter (fun r => r.date == today) := by
  induction rows with
  | nil => rfl
  | cons r rs ih =>
    have hdate : ((readRow r).date == today) = (r.date == today) := rfl
    cases hc : (r.date == today) <;>
      simp [List.filter_cons, hc, hdate, ih]

theorem dedup_length_le_of_sublist {α : Type} [DecidableEq α]
    {l1 l2 : List α} (h : List.Sublist l1 l2) :
    l1.dedup.length ≤ l2.dedup.length := by
  rw [← List.card_toFinset, ← List.card_toFinset]
  refine Finset.card_le_card fun x hx => ?_
  rw [List.mem_toFinset] at hx ⊢
  exact h.subset hx

/- ## Claim theorems -/

/-- C1: the claim states that deleting one record by position leaves every
record at other positions — including records whose date is not the current
date — unchanged in the persisted sequence.  The code violates this:
`delete_activity` reads only TODAY's records (`read_activities_for_today`)
and then `write_activities` rewrites the whole file with just that mutated
subset, so every record dated other than today is silently destroyed.
Concretely: a store holding a record dated 2026-10-11 and one dated
2026-10-12, with today = 2026-10-12; deleting position 0 (the only row
shown in the today table) leaves a store with NO records at all — the
untouched 2026-10-11 record is gone. -/
theorem C1_delete_destroys_nontoday_records :
    (readAllActivities (some
        [{ date := "2026-10-11", category := some "Work",
           activity := "Old", timeSpent := 30 },
         { date := "2026-10-12", category := some "Work",
           activity := "Email", timeSpent := 25 }])).1 =
      [{ date := "2026-10-11", category := "Work",
         activity := "Old", timeSpent := 30 },
       { date := "2026-10-12", category := "Work",
         activity := "Email", timeSpent := 25 }] ∧
    deleteActivity (some
        [{ date := "2026-10-11", category := some "Work",
           activity := "Old", timeSpent := 30 },
         { date := "2026-10-12", category := some "Work",
           activity := "Email", timeSpent := 25 }]) "2026-10-12" 0 =
      some [] := by
  decide

/-- C2: appending any sequence of (non-blank-named) form submissions to a
freshly initialized store and then reading all activities returns exactly
the corresponding records, in submission order, with no loss, duplication
or reordering. -/
theorem C2_append_then_read_all (today : String) (inps : List ActivityInput)
    (h : ∀ i ∈ inps, strip i.activity ≠ "") :
    initCsv none = some [] ∧
    (readAllActivities (some (appendAll today inps []))).1 =
      inps.map (mkRecord today) := by
  refine ⟨rfl, ?_⟩
  rw [appendAll_eq today inps [] h]
  show ((inps.map fun i => recordToRaw (mkRecord today i)).map readRow) = _
  rw [show (fun i => recordToRaw (mkRecord today i)) =
        recordToRaw ∘ mkRecord today from rfl,
    ← List.map_map, map_readRow_recordToRaw]

theorem C2_append_then_read_all_witness :
    (∀ i ∈ [({ category := "Work", activity := " Email ", duration := 30 } :
        ActivityInput)], strip i.activity ≠ "") ∧
    (initCsv none = some [] ∧
     (readAllActivities (some (appendAll "2026-10-12"
         [{ category := "Work", activity := " Email ", duration := 30 }] []))).1 =
       [{ date := "2026-10-12", category := "Work",
          activity := "Email", timeSpent := 30 }]) := by
  have h := C2_append_then_read_all "2026-10-12"
    [{ category := "Work", activity := " Email ", duration := 30 }] (by decide)
  exact ⟨by decide, h.1, h.2.trans (by decide)⟩

/-- C3: for every store state and every current date, the today-read is
exactly the date-filtered subsequence of the full read (hence a subset of
it, in the same relative order). -/
theorem C3_read_today_is_filter_of_read_all (st : FileState) (today : String) :
    (readActivitiesForToday st today).1 =
      (readAllActivities st).1.filter (fun r => r.date == today) := by
  cases st with
  | none => rfl
  | some rows => exact filter_map_readRow today rows

/-- C4: writing back an unmodified full read re-persists logically
identical content — a subsequent full read returns the same records in the
same order. -/
theorem C4_write_read_round_trip (st : FileState) :
    (readAllActivities (writeActivities (readAllActivities st).1)).1 =
      (readAllActivities st).1 := by
  show (((readAllActivities st).1.map recordToRaw).map readRow) = _
  exact map_readRow_recordToRaw _

/-- C5: for a fixed record set, the count of distinct dates whose per-date
time total meets the goal is monotonically non-increasing in the goal. -/
theorem C5_days_meeting_goal_antitone (activities : List Record)
    (g1 g2 : Int) (h : g1 ≤ g2) :
    daysMeetingGoal activities g2 ≤ daysMeetingGoal activities g1 := by
  refine dedup_length_le_of_sublist (List.Sublist.map _ ?_)
  refine List.monotone_filter_right activities fun a ha => ?_
  simp only [decide_eq_true_eq] at ha ⊢
  exact le_trans h ha

theorem C5_days_meeting_goal_antitone_witness :
    (0 : Int) ≤ 60 ∧
    daysMeetingGoal
        [{ date := "2026-10-12", category := "Work",
           activity := "Email", timeSpent := 30 }] 60 ≤
      daysMeetingGoal
        [{ date := "2026-10-12", category := "Work",
           activity := "Email", timeSpent := 30 }] 0 :=
  ⟨by decide, C5_days_meeting_goal_antitone
    [{ date := "2026-10-12", category := "Work",
       activity := "Email", timeSpent := 30 }] 0 60 (by decide)⟩

/-- C6: the remaining time for today equals `max (goal - total, 0)`, is
never negative, and the total time of the empty record sequence is 0. -/
theorem C6_remaining_time_spec (goal : Int) (activities : List Record) :
    remainingTime goal activities = max (goal - totalTime activities) 0 ∧
    0 ≤ remainingTime goal activities ∧
    totalTime ([] : List Record) = 0 :=
  ⟨rfl, le_max_right _ _, rfl⟩

/-- C7: initialization on a missing store creates a header-only store with
no records; on an existing store it is a no-op; hence it is idempotent. -/
theorem C7_init_idempotent :
    initCsv none = some [] ∧
    (∀ rows : List RawRow, initCsv (some rows) = some rows) ∧
    ∀ st : FileState, initCsv (initCsv st) = initCsv st := by
  refine ⟨rfl, fun rows => rfl, fun st => ?_⟩
  cases st <;> rfl

/-- C8: on a missing store, the full read returns the empty sequence with a
user-visible warning, while the today read returns the empty sequence
silently with no warning; both return normally (the model's reads are total
functions — neither raises). -/
theorem C8_missing_store_asymmetry :
    readAllActivities none = ([], true) ∧
    ∀ today : String, readActivitiesForToday none today = ([], false) :=
  ⟨rfl, fun _ => rfl⟩

/-- C9: a stored row whose category field is absent is not rejected by the
reads: the full read keeps it in place with the category defaulted to the
fixed label "Other" and every other field unchanged, and the today read
(at that row's date) does the same on the date-filtered view. -/
theorem C9_missing_category_defaulted (pre post : List RawRow) (r : RawRow)
    (hcat : r.category = none) :
    (readAllActivities (some (pre ++ r :: post))).1 =
      pre.map readRow ++
        { date := r.date, category := "Other", activity := r.activity,
          timeSpent := r.timeSpent } :: post.map readRow ∧
    (readActivitiesForToday (some (pre ++ r :: post)) r.date).1 =
      (pre.filter (fun x => x.date == r.date)).map readRow ++
        { date := r.date, category := "Other", activity := r.activity,
          timeSpent := r.timeSpent } ::
          (post.filter (fun x => x.date == r.date)).map readRow := by
  constructor
  · simp [readAllActivities, readRow, hcat]
  · simp [readActivitiesForToday, List.filter_append, List.filter_cons,
      readRow, hcat]

theorem C9_missing_category_defaulted_witness :
    ({ date := "2026-10-12", category := none, activity := "Email",
       timeSpent := 25 } : RawRow).category = none ∧
    (readAllActivities (some
        [{ date := "2026-10-11", category := some "Work",
           activity := "Old", timeSpent := 30 },
         { date := "2026-10-12", category := none,
           activity := "Email", timeSpent := 25 }])).1 =
      [{ date := "2026-10-11", category := "Work",
         activity := "Old", timeSpent := 30 },
       { date := "2026-10-12", category := "Other",
         activity := "Email", timeSpent := 25 }] := by
  have h := C9_missing_category_defaulted
    [{ date := "2026-10-11", category := some "Work",
       activity := "Old", timeSpent := 30 }] []
    { date := "2026-10-12", category := none,
      activity := "Email", timeSpent := 25 } rfl
  exact ⟨rfl, h.1.trans (by decide)⟩

/-- C10: submitting an activity whose name strips to the empty string
appends nothing: the record sequence is exactly unchanged (the source's
`if activity:` guard fails and no write, message box, or error occurs). -/
theorem C10_blank_name_is_noop (today category activity : String)
    (duration : Int) (rows : List RawRow) (h : strip activity = "") :
    addActivity today category activity duration rows = rows := by
  simp [addActivity, h]

theorem C10_blank_name_is_noop_witness :
    strip "   " = "" ∧
    addActivity "2026-10-12" "Work" "   " 5
        [{ date := "2026-10-11", category := some "Work",
           activity := "Old", timeSpent := 30 }] =
      [{ date := "2026-10-11", category := some "Work",
         activity := "Old", timeSpent := 30 }] :=
  ⟨by decide, C10_blank_name_is_noop "2026-10-12" "Work" "   " 5 _ (by decide)⟩

end Accour
